import Mathlib

/-!
Verification development for the OIDC authentication orchestrator of this
repository.  The definitions below are shallow embeddings of the three
router variants found in the source:

* `src/unnamed/part_004` — the direct callback handler (`handleCallback`,
  `exchangeAuthorizationCode`, `generateCodeChallenge`, `dedupeScopes`,
  `normalizeLanguage`, ...);
* `src/unnamed/part_005` — the consent-exchange Passport variant
  (`createOIDCRouter` verify callback);
* `src/plugins/oidc/server/auth/oidcRouter.ts` — the profile-by-email
  Passport variant (`createOIDCRouter` verify callback).

JavaScript `string | undefined | null` values are modelled as
`Option String` (`none` = nullish); loose claim bags
(`Record<string, unknown>`) as functions `String → Option JSValue`.
-/

/-- A JavaScript value as far as the OIDC code inspects one: a string, a
finite number, or anything else. -/
inductive JSValue where
  | str (s : String)
  | num (n : Int)
  | other
deriving DecidableEq, Repr

/-- A loose claim bag (`Record<string, unknown>`): claim name to value. -/
def OIDCClaims : Type := String → Option JSValue

/-- JS `String.prototype.trim()`: strip leading and trailing whitespace
(char-list implementation, so that concrete inputs evaluate). -/
def jsTrim (s : String) : String :=
  String.mk
    (((s.data.dropWhile Char.isWhitespace).reverse.dropWhile
      Char.isWhitespace).reverse)

/-- JS `String.prototype.split(" ")` with a single-space separator. -/
def splitSpaceAux : List Char → List Char → List String
  | [], acc => [String.mk acc.reverse]
  | c :: rest, acc =>
    if c = ' ' then String.mk acc.reverse :: splitSpaceAux rest []
    else splitSpaceAux rest (c :: acc)

/-- JS `s.split(" ")` over a string. -/
def jsSplitSpace (s : String) : List String := splitSpaceAux s.data []

/-- ASCII lower-casing of a character. -/
def lowerAsciiChar (c : Char) : Char :=
  if 65 ≤ c.toNat ∧ c.toNat ≤ 90 then Char.ofNat (c.toNat + 32) else c

/-- ASCII lower-casing of a string. -/
def lowerAscii (s : String) : String := String.mk (s.data.map lowerAsciiChar)

/-- The numeric value of a decimal digit string. -/
def digitsToNat (ds : List Char) : Nat :=
  ds.foldl (fun n c => n * 10 + (c.toNat - 48)) 0

/-- `parseString` from part_004: `typeof value === "string" && value.trim()
? value : undefined`.  Returns the original (untrimmed) string when its
trim is nonempty. -/
def parseString : Option JSValue → Option String
  | some (JSValue.str s) => if jsTrim s = "" then none else some s
  | _ => none

/-- JS truthiness of a `string | undefined | null` value: nullish and the
empty string are falsy. -/
def jsTruthy : Option String → Bool
  | none => false
  | some s => s ≠ ""

/-- JS `a ?? b` on nullable strings: `b` only when `a` is nullish. -/
def orNullish (a b : Option String) : Option String :=
  match a with
  | some s => some s
  | none => b

/-- JS `a ? a : b` on nullable strings: `b` when `a` is nullish or empty. -/
def orTruthy (a b : Option String) : Option String :=
  if jsTruthy a then a else b

/-- Leading decimal digits of a character list, as a numeral string. -/
def digitsPrefix : List Char → List Char
  | [] => []
  | c :: rest => if c.isDigit then c :: digitsPrefix rest else []

/-- `Number.parseInt(s, 10)`: skip leading whitespace, read an optional
sign and then a maximal run of decimal digits; `none` when no digit is
found (NaN). -/
def jsParseInt (s : String) : Option Int :=
  let chars := s.data.dropWhile (·.isWhitespace)
  match chars with
  | '-' :: rest =>
    let ds := digitsPrefix rest
    if ds = [] then none else some (-(digitsToNat ds : Int))
  | '+' :: rest =>
    let ds := digitsPrefix rest
    if ds = [] then none else some ((digitsToNat ds : Int))
  | _ =>
    let ds := digitsPrefix chars
    if ds = [] then none else some ((digitsToNat ds : Int))

/-- `parseNumber` from part_004: finite numbers pass through, strings go
through `Number.parseInt`, anything else is `undefined`. -/
def parseNumber : Option JSValue → Option Int
  | some (JSValue.num n) => some n
  | some (JSValue.str s) => jsParseInt s
  | _ => none

/-- `String.replace(/_/g, "-")`: every underscore becomes a hyphen. -/
def underscoresToHyphens (s : String) : String :=
  String.mk (s.data.map (fun c => if c = '_' then '-' else c))

/-- JS `String.replace("-", "_")` with a string pattern: only the FIRST
occurrence is replaced. -/
def replaceFirstHyphen : List Char → List Char
  | [] => []
  | c :: rest => if c = '-' then '_' :: rest else c :: replaceFirstHyphen rest

/-! ## Base64 and base64url (part_004 `toBase64Url`, `generateCodeChallenge`) -/

/-- The standard base64 alphabet used by `Buffer.toString("base64")`. -/
def stdAlphabet : List Char :=
  [ 'A','B','C','D','E','F','G','H','I','J','K','L','M','N','O','P','Q','R',
    'S','T','U','V','W','X','Y','Z','a','b','c','d','e','f','g','h','i','j',
    'k','l','m','n','o','p','q','r','s','t','u','v','w','x','y','z','0','1',
    '2','3','4','5','6','7','8','9','+','/' ]

/-- The base64url alphabet (RFC 4648 §5). -/
def urlAlphabet : List Char :=
  [ 'A','B','C','D','E','F','G','H','I','J','K','L','M','N','O','P','Q','R',
    'S','T','U','V','W','X','Y','Z','a','b','c','d','e','f','g','h','i','j',
    'k','l','m','n','o','p','q','r','s','t','u','v','w','x','y','z','0','1',
    '2','3','4','5','6','7','8','9','-','_' ]

/-- Standard base64 sextet encoding. -/
def encStd (n : Nat) : Char := stdAlphabet.getD n 'A'

/-- Base64url sextet encoding. -/
def encUrl (n : Nat) : Char := urlAlphabet.getD n 'A'

/-- RFC 4648 base64 with padding over a byte list, exactly what
`Buffer.toString("base64")` produces. -/
def b64Encode : List Nat → List Char
  | [] => []
  | [a] => [encStd (a / 4), encStd (a % 4 * 16), '=', '=']
  | [a, b] => [encStd (a / 4), encStd (a % 4 * 16 + b / 16), encStd (b % 16 * 4), '=']
  | a :: b :: c :: rest =>
    encStd (a / 4) :: encStd (a % 4 * 16 + b / 16) ::
      encStd (b % 16 * 4 + c / 64) :: encStd (c % 64) :: b64Encode rest

/-- The character substitution of part_004 `toBase64Url`:
`.replace(/\+/g, "-").replace(/\//g, "_")`. -/
def plusSlashToUrl (c : Char) : Char :=
  if c = '+' then '-' else if c = '/' then '_' else c

/-- `.replace(/=+$/g, "")`: remove the maximal trailing run of `=`. -/
def stripTrailingEq : List Char → List Char
  | [] => []
  | c :: rest =>
    let r := stripTrailingEq rest
    if r = [] ∧ c = '=' then [] else c :: r

/-- `toBase64Url` from part_004: standard base64, then `+`→`-`, `/`→`_`,
and trailing padding stripped. -/
def toBase64Url (bytes : List Nat) : List Char :=
  stripTrailingEq ((b64Encode bytes).map plusSlashToUrl)

/-- Reference unpadded base64url encoding, written independently from the
spec's words: encode directly with the url alphabet and no padding. -/
def b64UrlReference : List Nat → List Char
  | [] => []
  | [a] => [encUrl (a / 4), encUrl (a % 4 * 16)]
  | [a, b] => [encUrl (a / 4), encUrl (a % 4 * 16 + b / 16), encUrl (b % 16 * 4)]
  | a :: b :: c :: rest =>
    encUrl (a / 4) :: encUrl (a % 4 * 16 + b / 16) ::
      encUrl (b % 16 * 4 + c / 64) :: encUrl (c % 64) :: b64UrlReference rest

/-- `generateCodeChallenge` from part_004, with the SHA-256 digest
function abstracted (`crypto.createHash("sha256")` is external to the
repository): base64url-encode the digest of the verifier bytes. -/
def generateCodeChallenge (sha256 : List Nat → List Nat) (verifier : List Nat) :
    List Char :=
  toBase64Url (sha256 verifier)

/-! ## Language normalization, avatar validation, email parsing -/

/-- `normalizeLanguage` from part_004 / part_005, parametrized by the
supported-locale list (`languages` from the i18n module): nullish or empty
input is dropped; otherwise JS `language.replace("-", "_")` replaces the
FIRST hyphen only, and the result is kept only when it is a supported
locale. -/
def normalizeLanguage (langs : List String) (language : Option String) :
    Option String :=
  match language with
  | none => none
  | some l =>
    if l = "" then none
    else
      let normalized := String.mk (replaceFirstHyphen l.data)
      if normalized ∈ langs then some normalized else none

/-- Modelled from the spec: the supported-locale set (`languages` from the
shared i18n module, which is not part of the provided sources).  A
representative subset in the underscore form the spec describes. -/
def supportedLanguages : List String :=
  ["de_DE", "en_US", "es_ES", "fr_FR", "it_IT", "ja_JP", "ko_KR",
   "pt_BR", "uk_UA", "vi_VN", "zh_CN", "zh_TW"]

/-- Modelled from the spec: `isBase64Url` (from the shared url utilities,
not part of the provided sources) detects an embedded-data URL - a value
carrying inline data rather than a fetchable location. -/
def isBase64Url (s : String) : Bool :=
  List.isPrefixOf "data:".data s.data

/-- Modelled from the spec: `parseEmail` (shared email utilities, not part
of the provided sources) extracts the lower-cased domain of an email
address; no `@` or an empty remainder yields no domain. -/
def parseEmailDomain (email : String) : Option String :=
  match email.data.dropWhile (· ≠ '@') with
  | [] => none
  | _ :: rest => if rest = [] then none else some (lowerAscii (String.mk rest))

/-! ## Scope handling (part_004 `dedupeScopes` and router setup) -/

/-- Recursive worker for `dedupeScopes`: `seen` holds scopes already
emitted. -/
def dedupeGo (seen : List String) : List String → List String
  | [] => []
  | s :: rest =>
    if s = "" then dedupeGo seen rest
    else if s ∈ seen then dedupeGo seen rest
    else s :: dedupeGo (s :: seen) rest

/-- `dedupeScopes` from part_004: drop empty entries and duplicates,
keeping first occurrences in order. -/
def dedupeScopes (input : List String) : List String :=
  dedupeGo [] input

/-- The router-setup scope computation of part_004 lines 291-296:
`dedupeScopes(env.OIDC_SCOPES.split(" ").map(trim))`, then `unshift`
`"openid"` when absent. -/
def scopesInit (oidcScopes : String) : List String :=
  let scopes := dedupeScopes ((jsSplitSpace oidcScopes).map jsTrim)
  if "openid" ∈ scopes then scopes else "openid" :: scopes

/-! ## Token exchange (part_004 `exchangeAuthorizationCode`) -/

/-- The token endpoint's reply as the exchange code observes it: the HTTP
success flag and the JSON body fields. -/
structure TokenEndpointReply where
  ok : Bool
  access_token : Option JSValue
  refresh_token : Option JSValue
  expires_in : Option JSValue
  scope : Option JSValue
  id_token : Option JSValue
deriving Repr

/-- The normalized exchange result of part_004. -/
structure TokenSet where
  accessToken : String
  refreshToken : Option String
  expiresIn : Option Int
  scope : Option String
  idToken : Option String
deriving DecidableEq, Repr

/-- Failures of the callback path, tagged by the throwing site. -/
inductive AuthErr where
  | missingCredentials
  | exchangeFailed
  | missingAccessToken
  | userInfoFailed
  | providerError (msg : String)
  | missingCode
  | missingEmail
  | malformedUserInfo
  | missingName
  | invalidAvatar
  | missingSubject
  | missingProfile
  | missingAvatar
  | stateMismatch
deriving DecidableEq, Repr

/-- `exchangeAuthorizationCode` from part_004, with the HTTP transport
abstracted into the reply it returned: missing client credentials fail
first; a non-ok status is rejected; a body without a usable
`access_token` string is rejected; otherwise every field is normalized. -/
def exchangeAuthorizationCode (credsPresent : Bool)
    (reply : TokenEndpointReply) : Except AuthErr TokenSet :=
  if ¬ credsPresent then Except.error AuthErr.missingCredentials
  else if ¬ reply.ok then Except.error AuthErr.exchangeFailed
  else
    match parseString reply.access_token with
    | none => Except.error AuthErr.missingAccessToken
    | some tok =>
      Except.ok
        { accessToken := tok
          refreshToken := parseString reply.refresh_token
          expiresIn := parseNumber reply.expires_in
          scope := parseString reply.scope
          idToken := parseString reply.id_token }

/-! ## Claims resolution, part_004 variant (`handleCallback` lines 405-526) -/

/-- Lookup in an optional claim bag (`bag?.field`). -/
def claimOf (bag : Option OIDCClaims) (k : String) : Option JSValue :=
  match bag with
  | none => none
  | some c => c k

/-- `env.OIDC_USERNAME_CLAIM || "preferred_username"`. -/
def usernameClaimOf (setting : Option String) : String :=
  match setting with
  | some s => if s = "" then "preferred_username" else s
  | none => "preferred_username"

/-- The identity fields that part_004 `handleCallback` hands to
`accountProvisioner`. -/
structure Identity004 where
  email : String
  domain : String
  name : String
  avatarUrl : Option String
  language : Option String
  authProviderId : String
deriving DecidableEq, Repr

/-- The avatar chain of part_004 lines 479-483:
`parseString(userInfo?.picture) ?? parseString(userInfo?.avatar_url) ??
parseString(idTokenClaims?.picture) ?? null`. -/
def avatarOf004 (ui : OIDCClaims) (idt : Option OIDCClaims) : Option String :=
  orNullish (parseString (ui "picture"))
    (orNullish (parseString (ui "avatar_url")) (parseString (claimOf idt "picture")))

/-- The display-name chain of part_004 lines 467-472. -/
def nameOf004 (usernameClaimSetting : Option String) (ui : OIDCClaims)
    (idt : Option OIDCClaims) : Option String :=
  let uc := usernameClaimOf usernameClaimSetting
  orNullish (parseString (ui uc))
    (orNullish (parseString (claimOf idt uc))
      (orNullish (parseString (ui "name"))
        (orNullish (parseString (ui "preferred_username"))
          (parseString (ui "nickname")))))

/-- The claims-resolution part of part_004 `handleCallback` (lines
411-526), in source order: email (userinfo, then id-token claims), email
domain, display name chain, avatar chain with embedded-data rejection,
`sub`-claim subject with email fallback, locale normalization. -/
def resolveIdentity004 (langs : List String) (usernameClaimSetting : Option String)
    (ui : OIDCClaims) (idt : Option OIDCClaims) : Except AuthErr Identity004 :=
  match orNullish (parseString (ui "email")) (parseString (claimOf idt "email")) with
  | none => Except.error AuthErr.missingEmail
  | some email =>
    match parseEmailDomain email with
    | none => Except.error AuthErr.malformedUserInfo
    | some domain =>
      match nameOf004 usernameClaimSetting ui idt with
      | none => Except.error AuthErr.missingName
      | some name =>
        let avatarUrl := avatarOf004 ui idt
        match avatarUrl with
        | some a =>
          if isBase64Url a then Except.error AuthErr.invalidAvatar
          else
            Except.ok
              { email := email, domain := domain, name := name
                avatarUrl := some a
                language := normalizeLanguage langs
                  (orNullish (parseString (ui "locale"))
                    (parseString (claimOf idt "locale")))
                authProviderId :=
                  (orNullish (parseString (ui "sub"))
                    (orNullish (parseString (claimOf idt "sub")) (some email))).getD email }
        | none =>
          Except.ok
            { email := email, domain := domain, name := name
              avatarUrl := none
              language := normalizeLanguage langs
                (orNullish (parseString (ui "locale"))
                  (parseString (claimOf idt "locale")))
              authProviderId :=
                (orNullish (parseString (ui "sub"))
                  (orNullish (parseString (claimOf idt "sub")) (some email))).getD email }

/-! ## Claims resolution, Passport variants (part_005 and oidcRouter.ts) -/

/-- The Passport enrichment-service profile shape. -/
structure PassportProfile where
  id : Option String
  email : Option String
  nickname : Option String
  avatar_url : Option String
  preferred_language : Option String
deriving DecidableEq, Repr

/-- The user-info endpoint fields the Passport variants read (`name`,
`nickname` and `picture` only ever feed the debug log record). -/
structure UserInfoProfile where
  email : Option String
  sub : Option String
  id : Option String
  name : Option String
  nickname : Option String
  picture : Option String
deriving DecidableEq, Repr

/-- The id-token claim fields the Passport variants read. -/
structure IdTokenClaims where
  email : Option String
deriving DecidableEq, Repr

/-- The identity fields the part_005 verify callback hands to
`accountProvisioner`. -/
structure Identity005 where
  email : String
  domain : String
  name : String
  avatarUrl : Option String
  language : Option String
  profileId : String
deriving DecidableEq, Repr

/-- The part_005 (consent-exchange) verify callback, lines 298-417, with
the consent exchange abstracted into the Passport profile it returned
(`fetchPassportProfile` throws rather than returning null, so a profile
is always in hand here): email prefers the Passport profile, then
user-info, then id-token; display name is the Passport nickname only;
subject is `profile.sub` (truthy) then `profile.id`; a base64 data avatar
fails the callback; language is normalized. -/
def resolveIdentity005 (langs : List String) (pp : PassportProfile)
    (profile : UserInfoProfile) (token : IdTokenClaims) :
    Except AuthErr Identity005 :=
  let emailOpt := orNullish pp.email (orNullish profile.email token.email)
  if jsTruthy emailOpt = false then Except.error AuthErr.missingEmail
  else
    let email := emailOpt.getD ""
    match parseEmailDomain email with
    | none => Except.error AuthErr.malformedUserInfo
    | some domain =>
      if jsTruthy pp.nickname = false then Except.error AuthErr.missingName
      else
        let name := pp.nickname.getD ""
        let profileIdOpt := orTruthy profile.sub profile.id
        if jsTruthy profileIdOpt = false then Except.error AuthErr.missingSubject
        else
          let profileId := profileIdOpt.getD ""
          let avatarUrl := pp.avatar_url
          if jsTruthy avatarUrl ∧ isBase64Url (avatarUrl.getD "") then
            Except.error AuthErr.invalidAvatar
          else
            Except.ok
              { email := email, domain := domain, name := name
                avatarUrl := avatarUrl
                language := normalizeLanguage langs pp.preferred_language
                profileId := profileId }

/-- The identity fields the oidcRouter.ts verify callback hands to
`accountProvisioner` (avatar is mandatory in this variant and the
Passport preferred language is passed through untouched). -/
structure IdentityEmailLookup where
  email : String
  domain : String
  name : String
  avatarUrl : String
  language : Option String
  profileId : String
deriving DecidableEq, Repr

/-- The oidcRouter.ts (profile-by-email) verify callback, lines 122-296,
with the Passport lookup abstracted into its result (`fetchPassportProfile`
returns null on any failure): email prefers user-info then id-token; a
missing Passport profile fails; display name is the Passport nickname
only; subject is `profile.sub` (truthy) then `profile.id`; a missing or
base64 data avatar fails; `preferred_language` is passed through without
normalization. -/
def resolveIdentityEmailLookup (pp : Option PassportProfile)
    (profile : UserInfoProfile) (token : IdTokenClaims) :
    Except AuthErr IdentityEmailLookup :=
  let emailOpt := orNullish profile.email token.email
  if jsTruthy emailOpt = false then Except.error AuthErr.missingEmail
  else
    let email := emailOpt.getD ""
    match parseEmailDomain email with
    | none => Except.error AuthErr.malformedUserInfo
    | some domain =>
      match pp with
      | none => Except.error AuthErr.missingProfile
      | some pprof =>
        if jsTruthy pprof.nickname = false then Except.error AuthErr.missingName
        else
          let name := pprof.nickname.getD ""
          let profileIdOpt := orTruthy profile.sub profile.id
          if jsTruthy profileIdOpt = false then Except.error AuthErr.missingSubject
          else
            let profileId := profileIdOpt.getD ""
            match pprof.avatar_url with
            | none => Except.error AuthErr.missingAvatar
            | some avatar =>
              if avatar = "" then Except.error AuthErr.missingAvatar
              else if isBase64Url avatar then Except.error AuthErr.invalidAvatar
              else
                Except.ok
                  { email := email, domain := domain, name := name
                    avatarUrl := avatar
                    language :=
                      match pprof.preferred_language with
                      | none => none
                      | some l => some l
                    profileId := profileId }

/-! ## The part_004 callback orchestrator (`handleCallback`, lines 349-568) -/

/-- The state recovered from the state cookie (`parseState(stateCookie)`,
the codec itself lives outside the provided sources): the PKCE verifier,
the originating host, and the client variant. -/
structure ParsedState where
  codeVerifier : Option String
  host : Option String
  clientDesktop : Bool
deriving DecidableEq, Repr

/-- An externally observable step taken by `handleCallback`, with the
arguments the code passes at that point. -/
inductive CallbackStep where
  | verifyState (returnedState : String)
  | tokenExchange (code : String) (codeVerifier : Option String)
  | userInfoFetch (accessToken : String)
  | provisionAccount (ident : Identity004)
  | establishSession
deriving DecidableEq, Repr

/-- The callback parameters after `getParam(..)?.toString()`. -/
structure CallbackParams where
  error : Option String
  code : Option String
  state : Option String
deriving DecidableEq, Repr

/-- The outside world as `handleCallback` observes it: the parsed state
cookie, the state-store verdict, and the replies of each outbound call. -/
structure CallbackWorld where
  parsedState : Option ParsedState
  verifyOk : Bool
  credsPresent : Bool
  tokenReply : TokenEndpointReply
  userInfoOk : Bool
  userInfo : OIDCClaims
  idTokenDecode : String → Option OIDCClaims
  langs : List String
  usernameClaimSetting : Option String
  provisionOk : Bool

/-- The `try` block of part_004 `handleCallback` (lines 377-528) as a
trace of the steps it performs plus whether `signIn` was reached: an
`error` parameter or a missing `code` throws before anything runs; state
verification comes next; only then the token exchange (with the verifier
recovered from the state cookie), the user-info fetch, claims resolution,
provisioning and sign-in, each failure stopping the sequence. -/
def handleCallback004 (p : CallbackParams) (w : CallbackWorld) :
    List CallbackStep × Bool :=
  if jsTruthy p.error then ([], false)
  else if jsTruthy p.code = false then ([], false)
  else
    let returnedState := p.state.getD ""
    if w.verifyOk = false then ([CallbackStep.verifyState returnedState], false)
    else
      let code := p.code.getD ""
      let codeVerifier := w.parsedState.bind (fun s => s.codeVerifier)
      match exchangeAuthorizationCode w.credsPresent w.tokenReply with
      | Except.error _ =>
        ([CallbackStep.verifyState returnedState,
          CallbackStep.tokenExchange code codeVerifier], false)
      | Except.ok ts =>
        if w.userInfoOk = false then
          ([CallbackStep.verifyState returnedState,
            CallbackStep.tokenExchange code codeVerifier,
            CallbackStep.userInfoFetch ts.accessToken], false)
        else
          let idt :=
            match ts.idToken with
            | none => none
            | some raw => w.idTokenDecode raw
          match resolveIdentity004 w.langs w.usernameClaimSetting w.userInfo idt with
          | Except.error _ =>
            ([CallbackStep.verifyState returnedState,
              CallbackStep.tokenExchange code codeVerifier,
              CallbackStep.userInfoFetch ts.accessToken], false)
          | Except.ok ident =>
            if w.provisionOk = false then
              ([CallbackStep.verifyState returnedState,
                CallbackStep.tokenExchange code codeVerifier,
                CallbackStep.userInfoFetch ts.accessToken,
                CallbackStep.provisionAccount ident], false)
            else
              ([CallbackStep.verifyState returnedState,
                CallbackStep.tokenExchange code codeVerifier,
                CallbackStep.userInfoFetch ts.accessToken,
                CallbackStep.provisionAccount ident,
                CallbackStep.establishSession], true)

/-! ## Parameter extraction (`getParam`, part_004 lines 354-368) -/

/-- A Koa query value: `string | string[]`. -/
inductive QueryVal where
  | str (s : String)
  | arr (xs : List String)
deriving DecidableEq, Repr

/-- A request-body value as `getParam` classifies it. -/
inductive BodyVal where
  | str (s : String)
  | num (n : Int)
  | arr (xs : List String)
  | other
deriving DecidableEq, Repr

/-- What `getParam` can return: `string | string[] | number`. -/
inductive ParamVal where
  | str (s : String)
  | num (n : Int)
  | arr (xs : List String)
deriving DecidableEq, Repr

/-- The injection of a query value into the `getParam` result type. -/
def paramOfQuery : QueryVal → ParamVal
  | QueryVal.str s => ParamVal.str s
  | QueryVal.arr xs => ParamVal.arr xs

/-- `getParam` from part_004: the query value wins whenever it is defined;
otherwise a body value is used only when it is a string, a number or an
array, anything else counting as absent (as is a missing or non-object
body). -/
def getParam (query : String → Option QueryVal)
    (body : Option (String → Option BodyVal)) (key : String) : Option ParamVal :=
  match query key with
  | some qv => some (paramOfQuery qv)
  | none =>
    match body with
    | none => none
    | some b =>
      match b key with
      | some (BodyVal.str s) => some (ParamVal.str s)
      | some (BodyVal.num n) => some (ParamVal.num n)
      | some (BodyVal.arr xs) => some (ParamVal.arr xs)
      | some BodyVal.other => none
      | none => none

/-! ## The failure branch (part_004 `handleCallback` catch block, lines 529-563) -/

/-- A thrown error as the catch block inspects it: whether an `id` field
is present (and its value), an optional truthy `redirectPath`, and whether
the error is an `OAuthStateMismatchError`. -/
structure FailureErr where
  hasId : Bool
  id : String
  redirectPath : Option String
  isStateMismatch : Bool
deriving DecidableEq, Repr

/-- The request fields the catch block reads. -/
structure RequestCtx where
  protocol : String
  hostname : String
deriving DecidableEq, Repr

/-- The environment fields the catch block reads. -/
structure EnvHosting where
  isCloudHosted : Bool
  baseUrl : String
  isDevelopment : Bool
deriving DecidableEq, Repr

/-- The catch block of part_004 `handleCallback`: for an error carrying an
`id`, redirect to the error's truthy `redirectPath` (else `/`) on either
the request-derived origin (cloud-hosted) or `env.URL` (self-hosted),
appending `notice=` with the hyphenated id; errors without an `id`
re-throw in development and otherwise redirect to `/?notice=auth-error`.
`new URL(x).toString()` is the identity on the already-normalized
absolute URLs built here, so it is not re-modelled.  `none` means the
error was re-thrown instead of redirecting. -/
def failureRedirect (err : FailureErr) (parsedState : Option ParsedState)
    (ctx : RequestCtx) (env : EnvHosting) : Option String :=
  if err.hasId then
    let notice := underscoresToHyphens err.id
    let redirectPath :=
      match err.redirectPath with
      | some p => if p = "" then "/" else p
      | none => "/"
    let hasQueryString := redirectPath.data.contains '?'
    let reqProtocol :=
      if (match parsedState with
          | some s => s.clientDesktop
          | none => false) then "outline" else ctx.protocol
    let requestHost :=
      if err.isStateMismatch then ctx.hostname
      else
        match parsedState with
        | some s => (match s.host with | some h => h | none => ctx.hostname)
        | none => ctx.hostname
    let base :=
      if env.isCloudHosted then reqProtocol ++ "://" ++ requestHost ++ redirectPath
      else env.baseUrl ++ redirectPath
    some (base ++ (if hasQueryString then "&" else "?") ++ "notice=" ++ notice)
  else if env.isDevelopment then none
  else some "/?notice=auth-error"

/-! ## The initiation route (part_004 lines 302-347) -/

/-- The query parameters the initiation route sets on the authorization
URL (part_004 lines 327-340): `response_type`, `client_id`,
`redirect_uri`, `scope`, `state`, and - when PKCE is enabled and a
verifier was generated - `code_challenge` / `code_challenge_method`. -/
def authorizationParams (clientId : Option String) (redirectUri : String)
    (scopes : List String) (stateToken : Option String) (pkceEnabled : Bool)
    (sha256 : List Nat → List Nat) (codeVerifier : Option (List Nat)) :
    List (String × String) :=
  [("response_type", "code"),
   ("client_id", clientId.getD ""),
   ("redirect_uri", redirectUri),
   ("scope", String.intercalate " " scopes),
   ("state", stateToken.getD "")] ++
  (if pkceEnabled then
    match codeVerifier with
    | some v =>
      [("code_challenge", String.mk (generateCodeChallenge sha256 v)),
       ("code_challenge_method", "S256")]
    | none => []
  else [])

/-! ## Concrete sample data for witnesses and counterexamples -/

/-- A claim bag with no claims at all. -/
def emptyClaims : OIDCClaims := fun _ => none

/-- A successful token endpoint reply. -/
def replyOk : TokenEndpointReply :=
  { ok := true
    access_token := some (JSValue.str "t1")
    refresh_token := none
    expires_in := some (JSValue.num 3600)
    scope := none
    id_token := none }

/-- A user-info claim bag for a complete, valid profile. -/
def uiAlice : OIDCClaims := fun k =>
  if k = "email" then some (JSValue.str "a@example.com")
  else if k = "name" then some (JSValue.str "Alice")
  else if k = "sub" then some (JSValue.str "sub-1")
  else none

/-- Callback parameters of a well-formed provider redirect. -/
def pHappy : CallbackParams :=
  { error := none, code := some "abc123", state := some "st1" }

/-- A world in which every external step succeeds and the state cookie
holds the PKCE verifier `ver123`. -/
def wHappy : CallbackWorld :=
  { parsedState := some
      { codeVerifier := some "ver123", host := some "team.example.com"
        clientDesktop := false }
    verifyOk := true
    credsPresent := true
    tokenReply := replyOk
    userInfoOk := true
    userInfo := uiAlice
    idTokenDecode := fun _ => none
    langs := supportedLanguages
    usernameClaimSetting := none
    provisionOk := true }

/-- The same world with a failing state verification. -/
def wMismatch : CallbackWorld := { wHappy with verifyOk := false }

/-- A user-info claim bag carrying an embedded-data avatar. -/
def uiDataAvatar : OIDCClaims := fun k =>
  if k = "email" then some (JSValue.str "a@example.com")
  else if k = "name" then some (JSValue.str "Alice")
  else if k = "picture" then some (JSValue.str "data:image/png;base64,AAAA")
  else none

/-- A Passport profile carrying an embedded-data avatar. -/
def ppDataAvatar : PassportProfile :=
  { id := some "pp-1", email := some "a@example.com"
    nickname := some "Alice"
    avatar_url := some "data:image/png;base64,AAAA"
    preferred_language := none }

/-- A Passport profile whose display name conflicts with the user-info
one. -/
def ppNamed : PassportProfile :=
  { id := some "pp-1", email := some "a@example.com"
    nickname := some "PassportName"
    avatar_url := some "https://img.example.com/a.png"
    preferred_language := none }

/-- A user-info profile whose display-name fields conflict with the
Passport profile. -/
def profNamed : UserInfoProfile :=
  { email := some "a@example.com", sub := some "sub-1", id := some "id-1"
    name := some "UserInfoName", nickname := some "UserInfoNick"
    picture := none }

/-- A user-info claim bag with no `sub` claim (and no `id` field). -/
def uiNoSub : OIDCClaims := fun k =>
  if k = "email" then some (JSValue.str "user@example.com")
  else if k = "name" then some (JSValue.str "Alice")
  else none

/-- A Passport profile whose preferred language is not a supported
locale. -/
def ppUnsupportedLang : PassportProfile :=
  { id := some "pp-1", email := some "user@example.com"
    nickname := some "Alice"
    avatar_url := some "https://img.example.com/a.png"
    preferred_language := some "xx-YY" }

/-- Empty id-token claims for the Passport variants. -/
def tokNone : IdTokenClaims := { email := none }

/-- The error part_004 raises on a failed exchange, as the catch block
sees it (`AuthenticationError` carries id `authentication_error` and no
redirect path). -/
def errAuthC9 : FailureErr :=
  { hasId := true, id := "authentication_error", redirectPath := none
    isStateMismatch := false }

/-- A parsed state cookie whose origin host differs from the configured
base URL. -/
def stateC9 : ParsedState :=
  { codeVerifier := none, host := some "team.cloud.example"
    clientDesktop := false }

/-- Request context for the failure-redirect counterexample. -/
def ctxC9 : RequestCtx := { protocol := "https", hostname := "req.example.com" }

/-- A self-hosted environment. -/
def envC9 : EnvHosting :=
  { isCloudHosted := false, baseUrl := "https://selfhost.example.com"
    isDevelopment := false }

/-- A concrete query map supplying `code` as a string. -/
def queryC10 : String → Option QueryVal := fun k =>
  if k = "code" then some (QueryVal.str "fromQuery") else none

/-- A concrete body map supplying a conflicting `code` and a non-string
`state`. -/
def bodyC10 : String → Option BodyVal := fun k =>
  if k = "code" then some (BodyVal.str "fromBody")
  else if k = "state" then some BodyVal.other
  else none

/-- A stand-in digest function for concrete witnesses. -/
def shaSample : List Nat → List Nat := fun bytes => 7 :: 250 :: bytes

/-- The identity part_004 resolves for `uiNoSub`: with no `sub` claim
anywhere, the subject identifier silently becomes the email. -/
def identNoSub : Identity004 :=
  { email := "user@example.com", domain := "example.com", name := "Alice"
    avatarUrl := none, language := none
    authProviderId := "user@example.com" }

/-- The identity the email-lookup variant resolves for
`ppUnsupportedLang`/`profNamed`: the unsupported language tag is passed
through verbatim. -/
def identC8 : IdentityEmailLookup :=
  { email := "a@example.com", domain := "example.com", name := "Alice"
    avatarUrl := "https://img.example.com/a.png"
    language := some "xx-YY", profileId := "sub-1" }

/-- The redirect path the failure branch should use, per the spec: the
error's own (truthy) preferred redirect path when it carries one,
otherwise the default `/`. -/
def claimedRedirectPath (err : FailureErr) : String :=
  match err.redirectPath with
  | some p => if p = "" then "/" else p
  | none => "/"

/-- The redirect scheme of the failure branch: the desktop protocol for a
desktop client recovered from the state, else the request protocol. -/
def claimedScheme (ps : Option ParsedState) (ctx : RequestCtx) : String :=
  if (match ps with | some s => s.clientDesktop | none => false) then "outline"
  else ctx.protocol

/-- The redirect host the failure branch should use, per the spec: the
host recovered from the state cookie, except that a state-mismatch error
falls back to the request-derived host (as does a missing cookie). -/
def claimedHost (err : FailureErr) (ps : Option ParsedState)
    (ctx : RequestCtx) : String :=
  if err.isStateMismatch then ctx.hostname
  else
    match ps with
    | some s => (match s.host with | some hh => hh | none => ctx.hostname)
    | none => ctx.hostname

/-- The identity part_004 resolves for `uiAlice` with no id-token. -/
def identAlice : Identity004 :=
  { email := "a@example.com", domain := "example.com", name := "Alice"
    avatarUrl := none, language := none, authProviderId := "sub-1" }

/-! ## Base64url refinement lemmas -/

lemma plusSlashToUrl_encStd (n : Nat) : plusSlashToUrl (encStd n) = encUrl n := by
  rcases Nat.lt_or_ge n 64 with h | h
  · have key : ∀ m : Fin 64,
        plusSlashToUrl (stdAlphabet.getD (m : Nat) 'A') =
          urlAlphabet.getD (m : Nat) 'A' := by decide
    exact key ⟨n, h⟩
  · have h1 : stdAlphabet.getD n 'A' = 'A' := by
      apply List.getD_eq_default
      simpa [stdAlphabet] using h
    have h2 : urlAlphabet.getD n 'A' = 'A' := by
      apply List.getD_eq_default
      simpa [urlAlphabet] using h
    unfold encStd encUrl
    rw [h1, h2]
    rfl

lemma encStd_ne_eqsign (n : Nat) : encStd n ≠ '=' := by
  rcases Nat.lt_or_ge n 64 with h | h
  · have key : ∀ m : Fin 64, stdAlphabet.getD (m : Nat) 'A' ≠ '=' := by decide
    exact key ⟨n, h⟩
  · have h1 : stdAlphabet.getD n 'A' = 'A' := by
      apply List.getD_eq_default
      simpa [stdAlphabet] using h
    unfold encStd
    rw [h1]
    decide

lemma plusSlashToUrl_ne_eqsign {c : Char} (h : c ≠ '=') :
    plusSlashToUrl c ≠ '=' := by
  unfold plusSlashToUrl
  split
  · decide
  · split
    · decide
    · exact h

lemma stripTrailingEq_append_of_ne (xs ys : List Char)
    (h : ∀ x ∈ xs, x ≠ '=') :
    stripTrailingEq (xs ++ ys) = xs ++ stripTrailingEq ys := by
  induction xs with
  | nil => simp
  | cons c rest ih =>
    have hc : c ≠ '=' := h c (List.mem_cons_self c rest)
    have hrest : ∀ x ∈ rest, x ≠ '=' := fun x hx => h x (List.mem_cons_of_mem c hx)
    simp [stripTrailingEq, ih hrest, hc]

lemma encUrl_ne_eqsign (n : Nat) : encUrl n ≠ '=' := by
  rcases Nat.lt_or_ge n 64 with h | h
  · have key : ∀ m : Fin 64, urlAlphabet.getD (m : Nat) 'A' ≠ '=' := by decide
    exact key ⟨n, h⟩
  · have h1 : urlAlphabet.getD n 'A' = 'A' := by
      apply List.getD_eq_default
      simpa [urlAlphabet] using h
    unfold encUrl
    rw [h1]
    decide

lemma plusSlashToUrl_encUrl_ne_eqsign (n : Nat) :
    plusSlashToUrl (encStd n) ≠ '=' := by
  rw [plusSlashToUrl_encStd]
  exact encUrl_ne_eqsign n

/-- The part_004 padded-then-patched base64url pipeline agrees with the
directly written unpadded base64url reference on every byte list. -/
theorem toBase64Url_eq_reference (bytes : List Nat) :
    toBase64Url bytes = b64UrlReference bytes := by
  induction bytes using b64Encode.induct with
  | case1 =>
    simp [toBase64Url, b64Encode, stripTrailingEq, b64UrlReference]
  | case2 a =>
    have he : plusSlashToUrl '=' = '=' := by decide
    simp [toBase64Url, b64Encode, b64UrlReference, stripTrailingEq, he,
      plusSlashToUrl_encStd, encUrl_ne_eqsign]
  | case3 a b =>
    have he : plusSlashToUrl '=' = '=' := by decide
    simp [toBase64Url, b64Encode, b64UrlReference, stripTrailingEq, he,
      plusSlashToUrl_encStd, encUrl_ne_eqsign]
  | case4 a b c rest ih =>
    have hchunk : ∀ x ∈ [plusSlashToUrl (encStd (a / 4)),
        plusSlashToUrl (encStd (a % 4 * 16 + b / 16)),
        plusSlashToUrl (encStd (b % 16 * 4 + c / 64)),
        plusSlashToUrl (encStd (c % 64))], x ≠ '=' := by
      intro x hx
      simp only [List.mem_cons, List.not_mem_nil, or_false] at hx
      rcases hx with h | h | h | h <;>
        (subst h; exact plusSlashToUrl_encUrl_ne_eqsign _)
    have step : toBase64Url (a :: b :: c :: rest) =
        [plusSlashToUrl (encStd (a / 4)),
         plusSlashToUrl (encStd (a % 4 * 16 + b / 16)),
         plusSlashToUrl (encStd (b % 16 * 4 + c / 64)),
         plusSlashToUrl (encStd (c % 64))] ++ toBase64Url rest := by
      unfold toBase64Url
      show stripTrailingEq
          ([plusSlashToUrl (encStd (a / 4)),
            plusSlashToUrl (encStd (a % 4 * 16 + b / 16)),
            plusSlashToUrl (encStd (b % 16 * 4 + c / 64)),
            plusSlashToUrl (encStd (c % 64))] ++ (b64Encode rest).map plusSlashToUrl) = _
      rw [stripTrailingEq_append_of_ne _ _ hchunk]
    rw [step, ih]
    simp [b64UrlReference, plusSlashToUrl_encStd]

/-! ## Characterization helper lemmas -/

lemma except_error_of_not_ok {e o : Type} (r : Except e o)
    (h : ∀ b, r ≠ Except.ok b) : ∃ err, r = Except.error err := by
  cases r with
  | error err => exact ⟨err, rfl⟩
  | ok b => exact absurd rfl (h b)

lemma resolveIdentity004_ok {langs : List String} {ucs : Option String}
    {ui : OIDCClaims} {idt : Option OIDCClaims} {ident : Identity004}
    (hok : resolveIdentity004 langs ucs ui idt = Except.ok ident) :
    orNullish (parseString (ui "email")) (parseString (claimOf idt "email")) =
      some ident.email ∧
    parseEmailDomain ident.email = some ident.domain ∧
    nameOf004 ucs ui idt = some ident.name ∧
    ident.avatarUrl = avatarOf004 ui idt ∧
    (∀ a, ident.avatarUrl = some a → isBase64Url a = false) ∧
    ident.language = normalizeLanguage langs
      (orNullish (parseString (ui "locale")) (parseString (claimOf idt "locale"))) ∧
    ident.authProviderId =
      (orNullish (parseString (ui "sub"))
        (orNullish (parseString (claimOf idt "sub")) (some ident.email))).getD
        ident.email := by
  unfold resolveIdentity004 at hok
  dsimp only at hok
  split at hok
  all_goals try split at hok
  all_goals try split at hok
  all_goals try split at hok
  all_goals try split at hok
  all_goals first
    | exact Except.noConfusion hok
    | (simp only [Except.ok.injEq] at hok
       subst hok
       refine ⟨?_, ?_, ?_, ?_, ?_, ?_, ?_⟩ <;> simp_all)

lemma avatar_not_base64_of_guard {av : Option String}
    (hav : ¬(jsTruthy av = true ∧ isBase64Url (av.getD "") = true)) :
    ∀ a, av = some a → isBase64Url a = false := by
  intro a ha
  by_cases he : a = ""
  · subst he
    decide
  · have ht : jsTruthy av = true := by
      simp [ha, jsTruthy, he]
    have hb : ¬ isBase64Url (av.getD "") = true := fun hB => hav ⟨ht, hB⟩
    rw [ha] at hb
    simpa using hb

lemma resolveIdentity005_ok {langs : List String} {pp : PassportProfile}
    {profile : UserInfoProfile} {token : IdTokenClaims} {ident : Identity005}
    (hok : resolveIdentity005 langs pp profile token = Except.ok ident) :
    jsTruthy (orNullish pp.email (orNullish profile.email token.email)) = true ∧
    ident.email =
      (orNullish pp.email (orNullish profile.email token.email)).getD "" ∧
    parseEmailDomain ident.email = some ident.domain ∧
    jsTruthy pp.nickname = true ∧
    ident.name = pp.nickname.getD "" ∧
    jsTruthy (orTruthy profile.sub profile.id) = true ∧
    ident.profileId = (orTruthy profile.sub profile.id).getD "" ∧
    ident.avatarUrl = pp.avatar_url ∧
    (∀ a, ident.avatarUrl = some a → isBase64Url a = false) ∧
    ident.language = normalizeLanguage langs pp.preferred_language := by
  unfold resolveIdentity005 at hok
  dsimp only at hok
  split at hok
  all_goals try split at hok
  all_goals try split at hok
  all_goals try split at hok
  all_goals try split at hok
  all_goals first
    | exact Except.noConfusion hok
    | (simp only [Except.ok.injEq] at hok
       subst hok
       rename_i hav
       refine ⟨?_, ?_, ?_, ?_, ?_, ?_, ?_, ?_, ?_, ?_⟩ <;>
         first
           | exact avatar_not_base64_of_guard hav
           | simp_all)

lemma resolveIdentityEmailLookup_ok {pp : PassportProfile}
    {profile : UserInfoProfile} {token : IdTokenClaims}
    {ident : IdentityEmailLookup}
    (hok : resolveIdentityEmailLookup (some pp) profile token = Except.ok ident) :
    jsTruthy (orNullish profile.email token.email) = true ∧
    ident.email = (orNullish profile.email token.email).getD "" ∧
    parseEmailDomain ident.email = some ident.domain ∧
    jsTruthy pp.nickname = true ∧
    ident.name = pp.nickname.getD "" ∧
    jsTruthy (orTruthy profile.sub profile.id) = true ∧
    ident.profileId = (orTruthy profile.sub profile.id).getD "" ∧
    pp.avatar_url = some ident.avatarUrl ∧
    ident.avatarUrl ≠ "" ∧
    isBase64Url ident.avatarUrl = false ∧
    ident.language = pp.preferred_language := by
  unfold resolveIdentityEmailLookup at hok
  dsimp only at hok
  split at hok
  all_goals try split at hok
  all_goals try split at hok
  all_goals try split at hok
  all_goals try split at hok
  all_goals try split at hok
  all_goals try split at hok
  all_goals try split at hok
  all_goals first
    | exact Except.noConfusion hok
    | (simp only [Except.ok.injEq] at hok
       subst hok
       refine ⟨?_, ?_, ?_, ?_, ?_, ?_, ?_, ?_, ?_, ?_, ?_⟩ <;> simp_all)

lemma handleCallback004_tokenExchange_arg {p : CallbackParams}
    {w : CallbackWorld} {c : String} {cv : Option String}
    (h : CallbackStep.tokenExchange c cv ∈ (handleCallback004 p w).1) :
    c = p.code.getD "" ∧ cv = w.parsedState.bind (fun s => s.codeVerifier) := by
  unfold handleCallback004 at h
  dsimp only at h
  split at h
  all_goals try split at h
  all_goals try split at h
  all_goals try split at h
  all_goals try split at h
  all_goals try split at h
  all_goals try split at h
  all_goals simp_all

lemma handleCallback004_provision_ident {p : CallbackParams}
    {w : CallbackWorld} {ident : Identity004}
    (h : CallbackStep.provisionAccount ident ∈ (handleCallback004 p w).1) :
    ∃ idt, resolveIdentity004 w.langs w.usernameClaimSetting w.userInfo idt =
      Except.ok ident := by
  unfold handleCallback004 at h
  dsimp only at h
  split at h
  all_goals try split at h
  all_goals try split at h
  all_goals try split at h
  all_goals try split at h
  all_goals try split at h
  all_goals try split at h
  all_goals simp_all
  all_goals exact ⟨_, by assumption⟩

/-! ## Claim theorems -/

/-- C1: In the callback handler, if verification of the returned state
parameter against the state cookie fails, the handler moves to the
failure branch immediately: the token exchange and every later step
(user-info fetch, claims resolution, provisioning, sign-in) are never
invoked — the trace holds nothing but the verification attempt. -/
theorem claim1_state_mismatch_short_circuits (p : CallbackParams)
    (w : CallbackWorld) (h : w.verifyOk = false) :
    (handleCallback004 p w).2 = false ∧
    ∀ step ∈ (handleCallback004 p w).1,
      step = CallbackStep.verifyState (p.state.getD "") := by
  cases hE : jsTruthy p.error with
  | true => simp [handleCallback004, hE]
  | false =>
    cases hC : jsTruthy p.code with
    | false => simp [handleCallback004, hE, hC]
    | true => simp [handleCallback004, hE, hC, h]

/-- C1 witness: a concrete failed verification with an otherwise valid
request performs only the verification step. -/
theorem claim1_witness :
    (handleCallback004 pHappy wMismatch).2 = false ∧
    ∀ step ∈ (handleCallback004 pHappy wMismatch).1,
      step = CallbackStep.verifyState (pHappy.state.getD "") :=
  claim1_state_mismatch_short_circuits pHappy wMismatch rfl

/-- C3: The authorization-code-to-token exchange fails exactly when the
token endpoint returns a non-success status or a success body without a
usable `access_token` string; on failure no `TokenSet` is produced, and
on success the access token is the parsed body field. -/
theorem claim3_exchange_failure_characterization (reply : TokenEndpointReply) :
    ((∃ e, exchangeAuthorizationCode true reply = Except.error e) ↔
      (reply.ok = false ∨ parseString reply.access_token = none)) ∧
    (∀ e ts, exchangeAuthorizationCode true reply = Except.error e →
      exchangeAuthorizationCode true reply ≠ Except.ok ts) ∧
    (∀ ts, exchangeAuthorizationCode true reply = Except.ok ts →
      parseString reply.access_token = some ts.accessToken) := by
  refine ⟨?_, ?_, ?_⟩
  · cases hok : reply.ok with
    | false => simp [exchangeAuthorizationCode, hok]
    | true =>
      cases hacc : parseString reply.access_token with
      | none => simp [exchangeAuthorizationCode, hok, hacc]
      | some tok => simp [exchangeAuthorizationCode, hok, hacc]
  · intro e ts he
    rw [he]
    simp
  · intro ts hts
    cases hok : reply.ok with
    | false => simp [exchangeAuthorizationCode, hok] at hts
    | true =>
      cases hacc : parseString reply.access_token with
      | none => simp [exchangeAuthorizationCode, hok, hacc] at hts
      | some tok =>
        simp [exchangeAuthorizationCode, hok, hacc] at hts
        subst hts
        simp

/-- C3 witness: a success reply without `access_token` is rejected, and
a full success reply yields the parsed token. -/
theorem claim3_witness :
    ((∃ e, exchangeAuthorizationCode true
        { replyOk with access_token := none } = Except.error e) ↔
      (({ replyOk with access_token := none } : TokenEndpointReply).ok = false ∨
        parseString ({ replyOk with access_token := none } :
          TokenEndpointReply).access_token = none)) ∧
    (∀ ts, exchangeAuthorizationCode true replyOk = Except.ok ts →
      parseString replyOk.access_token = some ts.accessToken) :=
  ⟨(claim3_exchange_failure_characterization
      { replyOk with access_token := none }).1,
   (claim3_exchange_failure_characterization replyOk).2.2⟩

/-- C5: When the enrichment-service (Passport) path is configured and
returns a profile, the display name handed to the Account Provisioner is
the Passport profile's nickname — in both Passport variants — regardless
of any conflicting display-name values in the user-info profile or the
id-token claims. -/
theorem claim5_enrichment_name_wins :
    (∀ (langs : List String) (pp : PassportProfile) (profile : UserInfoProfile)
        (token : IdTokenClaims) (ident : Identity005) (n : String),
        pp.nickname = some n →
        resolveIdentity005 langs pp profile token = Except.ok ident →
        ident.name = n) ∧
    (∀ (pp : PassportProfile) (profile : UserInfoProfile)
        (token : IdTokenClaims) (ident : IdentityEmailLookup) (n : String),
        pp.nickname = some n →
        resolveIdentityEmailLookup (some pp) profile token = Except.ok ident →
        ident.name = n) := by
  constructor
  · intro langs pp profile token ident n hn hok
    unfold resolveIdentity005 at hok
    dsimp only at hok
    split at hok
    all_goals try split at hok
    all_goals try split at hok
    all_goals try split at hok
    all_goals try split at hok
    all_goals first
      | exact Except.noConfusion hok
      | (simp only [Except.ok.injEq] at hok
         subst hok
         simp_all)
  · intro pp profile token ident n hn hok
    unfold resolveIdentityEmailLookup at hok
    dsimp only at hok
    split at hok
    all_goals try split at hok
    all_goals try split at hok
    all_goals try split at hok
    all_goals try split at hok
    all_goals try split at hok
    all_goals try split at hok
    all_goals try split at hok
    all_goals first
      | exact Except.noConfusion hok
      | (simp only [Except.ok.injEq] at hok
         subst hok
         simp_all)

/-- C5 witness: with conflicting display names, both Passport variants
hand the Passport nickname to provisioning. -/
theorem claim5_witness :
    (∀ ident : Identity005,
      resolveIdentity005 supportedLanguages ppNamed profNamed tokNone =
        Except.ok ident → ident.name = "PassportName") ∧
    (∀ ident : IdentityEmailLookup,
      resolveIdentityEmailLookup (some ppNamed) profNamed tokNone =
        Except.ok ident → ident.name = "PassportName") :=
  ⟨fun ident h => claim5_enrichment_name_wins.1 supportedLanguages ppNamed
      profNamed tokNone ident "PassportName" rfl h,
   fun ident h => claim5_enrichment_name_wins.2 ppNamed
      profNamed tokNone ident "PassportName" rfl h⟩

/-- C10: In the callback handler's parameter extraction, a defined
query-string value always wins; the body is consulted only when the query
value is undefined, and only string, number or array body values are
used, anything else (or a missing body) counting as absent. -/
theorem claim10_param_precedence (query : String → Option QueryVal)
    (body : Option (String → Option BodyVal)) (key : String) :
    (∀ qv, query key = some qv →
      getParam query body key = some (paramOfQuery qv)) ∧
    (query key = none → ∀ b, body = some b →
      getParam query body key =
        (match b key with
          | some (BodyVal.str s) => some (ParamVal.str s)
          | some (BodyVal.num n) => some (ParamVal.num n)
          | some (BodyVal.arr xs) => some (ParamVal.arr xs)
          | some BodyVal.other => none
          | none => none)) ∧
    (query key = none → body = none → getParam query body key = none) := by
  refine ⟨?_, ?_, ?_⟩
  · intro qv hq
    simp [getParam, hq]
  · intro hq b hb
    simp [getParam, hq, hb]
  · intro hq hb
    simp [getParam, hq, hb]

/-- C10 witness: with both query and body supplying `code`, the query
value wins; a non-string body `state` is treated as absent. -/
theorem claim10_witness :
    (getParam queryC10 (some bodyC10) "code" =
      some (paramOfQuery (QueryVal.str "fromQuery"))) ∧
    (getParam queryC10 (some bodyC10) "state" =
      (match bodyC10 "state" with
        | some (BodyVal.str s) => some (ParamVal.str s)
        | some (BodyVal.num n) => some (ParamVal.num n)
        | some (BodyVal.arr xs) => some (ParamVal.arr xs)
        | some BodyVal.other => none
        | none => none)) :=
  ⟨(claim10_param_precedence queryC10 (some bodyC10) "code").1
      (QueryVal.str "fromQuery") rfl,
   (claim10_param_precedence queryC10 (some bodyC10) "state").2.1
      rfl bodyC10 rfl⟩


/-- C2: For every generated PKCE verifier, the `code_challenge` attached
to the authorization redirect equals the unpadded base64url encoding of
the SHA-256 digest of the verifier, and the token exchange is always
passed exactly the verifier recovered from the state cookie — never a
freshly generated one. -/
theorem claim2_pkce_round_trip :
    (∀ (sha256 : List Nat → List Nat) (cid : Option String) (ru : String)
        (scopes : List String) (st : Option String) (v : List Nat) (s : String),
        ("code_challenge", s) ∈
          authorizationParams cid ru scopes st true sha256 (some v) →
        s = String.mk (b64UrlReference (sha256 v))) ∧
    (∀ (p : CallbackParams) (w : CallbackWorld) (c : String) (cv : Option String),
        CallbackStep.tokenExchange c cv ∈ (handleCallback004 p w).1 →
        cv = w.parsedState.bind (fun s => s.codeVerifier)) := by
  constructor
  · intro sha256 cid ru scopes st v s h
    have hs : s = String.mk (generateCodeChallenge sha256 v) := by
      simpa [authorizationParams] using h
    rw [hs]
    exact congrArg String.mk (toBase64Url_eq_reference (sha256 v))
  · intro p w c cv h
    exact (handleCallback004_tokenExchange_arg h).2

/-- C2 witness: a concrete challenge parameter equals the reference
base64url digest encoding, and a concrete callback run passes the cookie
verifier `ver123` to the exchange. -/
theorem claim2_witness :
    String.mk (generateCodeChallenge shaSample [118]) =
      String.mk (b64UrlReference (shaSample [118])) ∧
    (some "ver123" : Option String) =
      wHappy.parsedState.bind (fun s => s.codeVerifier) :=
  ⟨claim2_pkce_round_trip.1 shaSample none "redir" [] none [118]
      (String.mk (generateCodeChallenge shaSample [118]))
      (by simp [authorizationParams]),
   claim2_pkce_round_trip.2 pHappy wHappy "abc123" (some "ver123")
      (by decide)⟩

/-- C4: For every resolver variant, a resolved avatar that is an
embedded-data URL fails the whole callback; on success the avatar handed
to provisioning is exactly the resolved value and is never such a URL,
and the orchestrated provisioning step never receives one. -/
theorem claim4_data_avatar_rejected :
    (∀ (langs : List String) (ucs : Option String) (ui : OIDCClaims)
        (idt : Option OIDCClaims) (a : String),
        avatarOf004 ui idt = some a → isBase64Url a = true →
        ∃ e, resolveIdentity004 langs ucs ui idt = Except.error e) ∧
    (∀ (langs : List String) (ucs : Option String) (ui : OIDCClaims)
        (idt : Option OIDCClaims) (ident : Identity004),
        resolveIdentity004 langs ucs ui idt = Except.ok ident →
        ident.avatarUrl = avatarOf004 ui idt ∧
        ∀ a, ident.avatarUrl = some a → isBase64Url a = false) ∧
    (∀ (langs : List String) (pp : PassportProfile) (profile : UserInfoProfile)
        (token : IdTokenClaims) (a : String),
        pp.avatar_url = some a → isBase64Url a = true →
        ∃ e, resolveIdentity005 langs pp profile token = Except.error e) ∧
    (∀ (langs : List String) (pp : PassportProfile) (profile : UserInfoProfile)
        (token : IdTokenClaims) (ident : Identity005),
        resolveIdentity005 langs pp profile token = Except.ok ident →
        ident.avatarUrl = pp.avatar_url ∧
        ∀ a, ident.avatarUrl = some a → isBase64Url a = false) ∧
    (∀ (pp : PassportProfile) (profile : UserInfoProfile)
        (token : IdTokenClaims) (a : String),
        pp.avatar_url = some a → isBase64Url a = true →
        ∃ e, resolveIdentityEmailLookup (some pp) profile token = Except.error e) ∧
    (∀ (pp : PassportProfile) (profile : UserInfoProfile)
        (token : IdTokenClaims) (ident : IdentityEmailLookup),
        resolveIdentityEmailLookup (some pp) profile token = Except.ok ident →
        pp.avatar_url = some ident.avatarUrl ∧
        isBase64Url ident.avatarUrl = false) ∧
    (∀ (p : CallbackParams) (w : CallbackWorld) (ident : Identity004),
        CallbackStep.provisionAccount ident ∈ (handleCallback004 p w).1 →
        ∀ a, ident.avatarUrl = some a → isBase64Url a = false) := by
  refine ⟨?_, ?_, ?_, ?_, ?_, ?_, ?_⟩
  · intro langs ucs ui idt a hav hb64
    apply except_error_of_not_ok
    intro ident hok
    have hc := resolveIdentity004_ok hok
    have h2 := hc.2.2.2.2.1 a (by rw [hc.2.2.2.1, hav])
    rw [hb64] at h2
    exact absurd h2 (by decide)
  · intro langs ucs ui idt ident hok
    have hc := resolveIdentity004_ok hok
    exact ⟨hc.2.2.2.1, hc.2.2.2.2.1⟩
  · intro langs pp profile token a hav hb64
    apply except_error_of_not_ok
    intro ident hok
    have hc := resolveIdentity005_ok hok
    have h2 := hc.2.2.2.2.2.2.2.2.1 a (by rw [hc.2.2.2.2.2.2.2.1, hav])
    rw [hb64] at h2
    exact absurd h2 (by decide)
  · intro langs pp profile token ident hok
    have hc := resolveIdentity005_ok hok
    exact ⟨hc.2.2.2.2.2.2.2.1, hc.2.2.2.2.2.2.2.2.1⟩
  · intro pp profile token a hav hb64
    apply except_error_of_not_ok
    intro ident hok
    have hc := resolveIdentityEmailLookup_ok hok
    have h1 := hc.2.2.2.2.2.2.2.1
    rw [hav] at h1
    have ha : a = ident.avatarUrl := Option.some_inj.mp h1
    have h2 := hc.2.2.2.2.2.2.2.2.2.1
    rw [← ha, hb64] at h2
    exact absurd h2 (by decide)
  · intro pp profile token ident hok
    have hc := resolveIdentityEmailLookup_ok hok
    exact ⟨hc.2.2.2.2.2.2.2.1, hc.2.2.2.2.2.2.2.2.2.1⟩
  · intro p w ident h a ha
    obtain ⟨idt, hres⟩ := handleCallback004_provision_ident h
    exact (resolveIdentity004_ok hres).2.2.2.2.1 a ha

/-- C4 witness: concrete embedded-data avatars make every resolver
variant fail. -/
theorem claim4_witness :
    (∃ e, resolveIdentity004 supportedLanguages none uiDataAvatar none =
      Except.error e) ∧
    (∃ e, resolveIdentity005 supportedLanguages ppDataAvatar profNamed tokNone =
      Except.error e) ∧
    (∃ e, resolveIdentityEmailLookup (some ppDataAvatar) profNamed tokNone =
      Except.error e) :=
  ⟨claim4_data_avatar_rejected.1 supportedLanguages none uiDataAvatar none
      "data:image/png;base64,AAAA" (by decide) (by decide),
   claim4_data_avatar_rejected.2.2.1 supportedLanguages ppDataAvatar profNamed
      tokNone "data:image/png;base64,AAAA" rfl (by decide),
   claim4_data_avatar_rejected.2.2.2.2.1 ppDataAvatar profNamed
      tokNone "data:image/png;base64,AAAA" rfl (by decide)⟩

/-- C6 counterexample: with no `sub` claim in either the user-info bag or
the id-token claims (and no `id` field consulted at all), the part_004
callback does not fail — it resolves successfully and substitutes the
email as the external subject identifier. -/
theorem claim6_counterexample :
    uiNoSub "sub" = none ∧ uiNoSub "id" = none ∧
    resolveIdentity004 supportedLanguages none uiNoSub none =
      Except.ok identNoSub ∧
    identNoSub.authProviderId = identNoSub.email :=
  ⟨rfl, rfl, rfl, rfl⟩

/-- C6 (amended): the external subject identifier prefers the `sub` claim
(user-info, then id-token) and falls back to the EMAIL in the part_004
handler; the two Passport variants prefer a truthy `profile.sub`, then
`profile.id`, and fail when neither is truthy — the enrichment service's
own identifier is never consulted. -/
theorem claim6_subject_resolution :
    (∀ (langs : List String) (ucs : Option String) (ui : OIDCClaims)
        (idt : Option OIDCClaims) (ident : Identity004),
        resolveIdentity004 langs ucs ui idt = Except.ok ident →
        ident.authProviderId =
          (orNullish (parseString (ui "sub"))
            (orNullish (parseString (claimOf idt "sub"))
              (some ident.email))).getD ident.email) ∧
    (∀ (langs : List String) (pp : PassportProfile) (profile : UserInfoProfile)
        (token : IdTokenClaims) (ident : Identity005),
        resolveIdentity005 langs pp profile token = Except.ok ident →
        jsTruthy (orTruthy profile.sub profile.id) = true ∧
        ident.profileId = (orTruthy profile.sub profile.id).getD "") ∧
    (∀ (langs : List String) (pp : PassportProfile) (profile : UserInfoProfile)
        (token : IdTokenClaims),
        jsTruthy (orTruthy profile.sub profile.id) = false →
        ∃ e, resolveIdentity005 langs pp profile token = Except.error e) ∧
    (∀ (pp : PassportProfile) (profile : UserInfoProfile)
        (token : IdTokenClaims) (ident : IdentityEmailLookup),
        resolveIdentityEmailLookup (some pp) profile token = Except.ok ident →
        jsTruthy (orTruthy profile.sub profile.id) = true ∧
        ident.profileId = (orTruthy profile.sub profile.id).getD "") ∧
    (∀ (pp : PassportProfile) (profile : UserInfoProfile)
        (token : IdTokenClaims),
        jsTruthy (orTruthy profile.sub profile.id) = false →
        ∃ e, resolveIdentityEmailLookup (some pp) profile token =
          Except.error e) := by
  refine ⟨?_, ?_, ?_, ?_, ?_⟩
  · intro langs ucs ui idt ident hok
    exact (resolveIdentity004_ok hok).2.2.2.2.2.2
  · intro langs pp profile token ident hok
    have hc := resolveIdentity005_ok hok
    exact ⟨hc.2.2.2.2.2.1, hc.2.2.2.2.2.2.1⟩
  · intro langs pp profile token hsub
    apply except_error_of_not_ok
    intro ident hok
    have hc := resolveIdentity005_ok hok
    rw [hc.2.2.2.2.2.1] at hsub
    exact absurd hsub (by decide)
  · intro pp profile token ident hok
    have hc := resolveIdentityEmailLookup_ok hok
    exact ⟨hc.2.2.2.2.2.1, hc.2.2.2.2.2.2.1⟩
  · intro pp profile token hsub
    apply except_error_of_not_ok
    intro ident hok
    have hc := resolveIdentityEmailLookup_ok hok
    rw [hc.2.2.2.2.2.1] at hsub
    exact absurd hsub (by decide)

/-- C6 witness: the concrete no-`sub` run exercises the email fallback of
the amended subject-resolution rule. -/
theorem claim6_witness :
    identNoSub.authProviderId =
      (orNullish (parseString (uiNoSub "sub"))
        (orNullish (parseString (claimOf none "sub"))
          (some identNoSub.email))).getD identNoSub.email :=
  claim6_subject_resolution.1 supportedLanguages none uiNoSub none identNoSub
    rfl


lemma dedupeGo_mem (x : String) :
    ∀ (l seen : List String),
      x ∈ dedupeGo seen l ↔ (x ∈ l ∧ x ≠ "" ∧ x ∉ seen) := by
  intro l
  induction l with
  | nil => intro seen; simp [dedupeGo]
  | cons s rest ih =>
    intro seen
    by_cases hs : s = ""
    · have hgo : dedupeGo seen (s :: rest) = dedupeGo seen rest := by
        rw [dedupeGo, if_pos hs]
      rw [hgo, ih]
      constructor
      · rintro ⟨h1, h2, h3⟩
        exact ⟨List.mem_cons_of_mem _ h1, h2, h3⟩
      · rintro ⟨h1, h2, h3⟩
        rcases List.mem_cons.mp h1 with rfl | h1
        · exact absurd hs h2
        · exact ⟨h1, h2, h3⟩
    · by_cases hseen : s ∈ seen
      · have hgo : dedupeGo seen (s :: rest) = dedupeGo seen rest := by
          rw [dedupeGo, if_neg hs, if_pos hseen]
        rw [hgo, ih]
        constructor
        · rintro ⟨h1, h2, h3⟩
          exact ⟨List.mem_cons_of_mem _ h1, h2, h3⟩
        · rintro ⟨h1, h2, h3⟩
          rcases List.mem_cons.mp h1 with rfl | h1
          · exact absurd hseen h3
          · exact ⟨h1, h2, h3⟩
      · have hgo : dedupeGo seen (s :: rest) = s :: dedupeGo (s :: seen) rest := by
          rw [dedupeGo, if_neg hs, if_neg hseen]
        rw [hgo]
        constructor
        · intro hx
          rcases List.mem_cons.mp hx with rfl | hx
          · exact ⟨List.mem_cons_self _ _, hs, hseen⟩
          · obtain ⟨h1, h2, h3⟩ := (ih (s :: seen)).mp hx
            exact ⟨List.mem_cons_of_mem _ h1, h2,
              fun hx2 => h3 (List.mem_cons_of_mem _ hx2)⟩
        · rintro ⟨h1, h2, h3⟩
          by_cases hxs : x = s
          · exact hxs ▸ List.mem_cons_self _ _
          · rcases List.mem_cons.mp h1 with rfl | h1
            · exact absurd rfl hxs
            · refine List.mem_cons_of_mem _
                ((ih (s :: seen)).mpr ⟨h1, h2, fun hx2 => ?_⟩)
              rcases List.mem_cons.mp hx2 with rfl | hx2
              · exact hxs rfl
              · exact h3 hx2

lemma dedupeGo_nodup : ∀ (l seen : List String), (dedupeGo seen l).Nodup := by
  intro l
  induction l with
  | nil => intro seen; simp [dedupeGo]
  | cons s rest ih =>
    intro seen
    by_cases hs : s = ""
    · rw [dedupeGo, if_pos hs]
      exact ih seen
    · by_cases hseen : s ∈ seen
      · rw [dedupeGo, if_neg hs, if_pos hseen]
        exact ih seen
      · rw [dedupeGo, if_neg hs, if_neg hseen]
        refine List.nodup_cons.mpr ⟨fun hmem => ?_, ih (s :: seen)⟩
        have := (dedupeGo_mem s rest (s :: seen)).mp hmem
        exact this.2.2 (List.mem_cons_self s seen)

lemma scopesInit_def (cfg : String) :
    scopesInit cfg =
      if "openid" ∈ dedupeScopes ((jsSplitSpace cfg).map jsTrim) then
        dedupeScopes ((jsSplitSpace cfg).map jsTrim)
      else "openid" :: dedupeScopes ((jsSplitSpace cfg).map jsTrim) := rfl

/-- C7 counterexample: when `openid` is already among the configured
scopes but not first, the resulting scope list does not start with
`openid` — the code only unshifts it when it is absent. -/
theorem claim7_counterexample :
    scopesInit "profile openid" = ["profile", "openid"] ∧
    (scopesInit "profile openid").head? ≠ some "openid" := by
  constructor
  · rfl
  · intro h
    rw [show scopesInit "profile openid" = ["profile", "openid"] from rfl] at h
    simp at h

/-- C7 (amended): the scope list contains `openid` plus every configured
nonempty trimmed scope, duplicates removed (first occurrence kept), and
nothing else; `openid` is placed first exactly when it was not among the
configured scopes — a configured `openid` keeps its configured position. -/
theorem claim7_scope_list (cfg : String) :
    "openid" ∈ scopesInit cfg ∧
    (scopesInit cfg).Nodup ∧
    (∀ s, s ∈ (jsSplitSpace cfg).map jsTrim → s ≠ "" → s ∈ scopesInit cfg) ∧
    (∀ s, s ∈ scopesInit cfg →
      s = "openid" ∨ (s ∈ (jsSplitSpace cfg).map jsTrim ∧ s ≠ "")) ∧
    ("openid" ∉ (jsSplitSpace cfg).map jsTrim →
      (scopesInit cfg).head? = some "openid") := by
  refine ⟨?_, ?_, ?_, ?_, ?_⟩
  · rw [scopesInit_def]
    split
    · assumption
    · exact List.mem_cons_self _ _
  · rw [scopesInit_def]
    split
    · exact dedupeGo_nodup _ _
    · exact List.nodup_cons.mpr ⟨by assumption, dedupeGo_nodup _ _⟩
  · intro s hmem hne
    have hdedupe : s ∈ dedupeScopes ((jsSplitSpace cfg).map jsTrim) :=
      (dedupeGo_mem s _ []).mpr ⟨hmem, hne, by simp⟩
    rw [scopesInit_def]
    split
    · exact hdedupe
    · exact List.mem_cons_of_mem _ hdedupe
  · intro s hmem
    rw [scopesInit_def] at hmem
    split at hmem
    · have := (dedupeGo_mem s _ []).mp hmem
      exact Or.inr ⟨this.1, this.2.1⟩
    · rcases List.mem_cons.mp hmem with rfl | hmem
      · exact Or.inl rfl
      · have := (dedupeGo_mem s _ []).mp hmem
        exact Or.inr ⟨this.1, this.2.1⟩
  · intro hnot
    have hno : "openid" ∉ dedupeScopes ((jsSplitSpace cfg).map jsTrim) := by
      intro hmem
      exact hnot ((dedupeGo_mem _ _ []).mp hmem).1
    rw [scopesInit_def, if_neg hno]
    rfl

/-- C7 witness: a configuration without `openid` yields a deduplicated
list headed by `openid`. -/
theorem claim7_witness :
    "openid" ∈ scopesInit "profile email" ∧
    (scopesInit "profile email").head? = some "openid" :=
  ⟨(claim7_scope_list "profile email").1,
   (claim7_scope_list "profile email").2.2.2.2 (by decide)⟩

/-- C8 counterexample: the email-lookup variant hands the enrichment
profile's `preferred_language` to provisioning verbatim — the unsupported
hyphenated tag `xx-YY` is neither normalized nor dropped, though the
normalization function maps it to nothing. -/
theorem claim8_counterexample :
    resolveIdentityEmailLookup (some ppUnsupportedLang) profNamed tokNone =
      Except.ok identC8 ∧
    identC8.language = some "xx-YY" ∧
    normalizeLanguage supportedLanguages (some "xx-YY") = none :=
  ⟨rfl, rfl, rfl⟩

/-- C8 (amended): in the part_004 and part_005 variants the language
handed to provisioning is `normalizeLanguage` of the source locale (first
hyphen to underscore, kept only when supported, silently dropped
otherwise), and in part_005 the callback's success never depends on the
preferred language; the email-lookup variant instead passes the
enrichment profile's `preferred_language` through unnormalized. -/
theorem claim8_language_normalization :
    (∀ (langs : List String) (ucs : Option String) (ui : OIDCClaims)
        (idt : Option OIDCClaims) (ident : Identity004),
        resolveIdentity004 langs ucs ui idt = Except.ok ident →
        ident.language = normalizeLanguage langs
          (orNullish (parseString (ui "locale"))
            (parseString (claimOf idt "locale")))) ∧
    (∀ (langs : List String) (pp : PassportProfile) (profile : UserInfoProfile)
        (token : IdTokenClaims) (ident : Identity005),
        resolveIdentity005 langs pp profile token = Except.ok ident →
        ident.language = normalizeLanguage langs pp.preferred_language) ∧
    (∀ (langs : List String) (pp : PassportProfile) (profile : UserInfoProfile)
        (token : IdTokenClaims) (l : Option String),
        (resolveIdentity005 langs
          { pp with preferred_language := l } profile token).isOk =
        (resolveIdentity005 langs pp profile token).isOk) ∧
    (∀ (pp : PassportProfile) (profile : UserInfoProfile)
        (token : IdTokenClaims) (ident : IdentityEmailLookup),
        resolveIdentityEmailLookup (some pp) profile token = Except.ok ident →
        ident.language = pp.preferred_language) := by
  refine ⟨?_, ?_, ?_, ?_⟩
  · intro langs ucs ui idt ident hok
    exact (resolveIdentity004_ok hok).2.2.2.2.2.1
  · intro langs pp profile token ident hok
    exact (resolveIdentity005_ok hok).2.2.2.2.2.2.2.2.2
  · intro langs pp profile token l
    by_cases h1 : jsTruthy (orNullish pp.email (orNullish profile.email token.email)) = false
    · simp [resolveIdentity005, h1]
    · cases h2 : parseEmailDomain
        ((orNullish pp.email (orNullish profile.email token.email)).getD "") with
      | none => simp [resolveIdentity005, h1, h2]
      | some d =>
        by_cases h3 : jsTruthy pp.nickname = false
        · simp [resolveIdentity005, h1, h2, h3]
        · by_cases h4 : jsTruthy (orTruthy profile.sub profile.id) = false
          · simp [resolveIdentity005, h1, h2, h3, h4]
          · by_cases h5 : jsTruthy pp.avatar_url = true ∧
              isBase64Url (pp.avatar_url.getD "") = true
            · simp [resolveIdentity005, h1, h2, h3, h4, h5]
            · simp [resolveIdentity005, h1, h2, h3, h4, h5]
              rfl
  · intro pp profile token ident hok
    exact (resolveIdentityEmailLookup_ok hok).2.2.2.2.2.2.2.2.2.2

/-- C8 witness: a concrete successful part_004 resolution carries the
normalized locale, and the email-lookup variant carries the raw one. -/
theorem claim8_witness :
    identAlice.language = normalizeLanguage supportedLanguages
      (orNullish (parseString (uiAlice "locale"))
        (parseString (claimOf none "locale"))) ∧
    identC8.language = ppUnsupportedLang.preferred_language :=
  ⟨claim8_language_normalization.1 supportedLanguages none uiAlice none
      identAlice rfl,
   claim8_language_normalization.2.2.2 ppUnsupportedLang profNamed tokNone
      identC8 rfl⟩

/-- C9 counterexample: in a self-hosted environment the failure redirect
is built on `env.URL`, not on the host recovered from the state cookie,
so the claimed redirect (state-cookie host) differs from the actual one. -/
theorem claim9_counterexample :
    failureRedirect errAuthC9 (some stateC9) ctxC9 envC9 =
      some "https://selfhost.example.com/?notice=authentication-error" ∧
    claimedHost errAuthC9 (some stateC9) ctxC9 = "team.cloud.example" ∧
    failureRedirect errAuthC9 (some stateC9) ctxC9 envC9 ≠
      some ("https://" ++ claimedHost errAuthC9 (some stateC9) ctxC9 ++
        "/?notice=authentication-error") := by
  exact ⟨rfl, rfl, by decide⟩

/-- C9 (amended): for an error carrying an identifier the failure branch
redirects to the error's own truthy redirect path (default `/`), appends
`notice=` with the id's underscores turned to hyphens (after `&` when the
path already has a query string), and — only when cloud-hosted — targets
the host recovered from the state cookie (the request host for a state
mismatch, and the desktop scheme for a desktop client); when self-hosted
the configured base URL is used instead of either host. -/
theorem claim9_failure_redirect (err : FailureErr) (ps : Option ParsedState)
    (ctx : RequestCtx) (env : EnvHosting) (h : err.hasId = true) :
    failureRedirect err ps ctx env =
      some ((if env.isCloudHosted then
              claimedScheme ps ctx ++ "://" ++ claimedHost err ps ctx ++
                claimedRedirectPath err
            else env.baseUrl ++ claimedRedirectPath err) ++
        (if (claimedRedirectPath err).data.contains '?' then "&" else "?") ++
        "notice=" ++ underscoresToHyphens err.id) := by
  unfold failureRedirect claimedScheme claimedHost claimedRedirectPath
  rw [if_pos h]

/-- C9 witness: the concrete self-hosted failure redirect matches the
amended characterization. -/
theorem claim9_witness :
    failureRedirect errAuthC9 (some stateC9) ctxC9 envC9 =
      some ((if envC9.isCloudHosted then
              claimedScheme (some stateC9) ctxC9 ++ "://" ++
                claimedHost errAuthC9 (some stateC9) ctxC9 ++
                claimedRedirectPath errAuthC9
            else envC9.baseUrl ++ claimedRedirectPath errAuthC9) ++
        (if (claimedRedirectPath errAuthC9).data.contains '?' then "&" else "?") ++
        "notice=" ++ underscoresToHyphens errAuthC9.id) :=
  claim9_failure_redirect errAuthC9 (some stateC9) ctxC9 envC9 rfl
